import Mathlib

/-!
Verification of the food-product resolution and scoring pipeline of
`backend/server.py` (Indian food health tracker).

The Python source is shallowly embedded: Python floats are modelled as
rationals (`ℚ`), Python `Optional` fields as `Option`, Python truthiness
tests (`if x:` on an optional number / string / list) as the conjunction
"present and nonzero / nonempty", and `round(x, 1)` as round-half-to-even
on tenths.  Network-dependent functions are modelled by passing the raw
results that the upstream sources would return as explicit arguments, and
where a claim is about *whether* a network call happens, the model carries
an explicit boolean recording that the corresponding branch was reached.
-/

/-! ## String helpers (Python `str.lower`, `in`, `startswith`, `replace`) -/

/-- Python `s.lower()` for the ASCII strings used by the service. -/
def pyLower (s : String) : String := ⟨s.data.map Char.toLower⟩

/-- Check that the second list is a prefix of the first (character lists). -/
def startsWithL : List Char → List Char → Bool
  | _, [] => true
  | [], _ :: _ => false
  | c :: s, p :: ps => c == p && startsWithL s ps

/-- Check that `pat` occurs contiguously somewhere in the list. -/
def subOccurs (pat : List Char) : List Char → Bool
  | [] => pat.isEmpty
  | c :: t => startsWithL (c :: t) pat || subOccurs pat t

/-- Python `pat in s` (substring containment). -/
def strContains (s pat : String) : Bool := subOccurs pat.data s.data

/-- Python `s.replace(pat, rep)` for nonempty `pat`: replace every
non-overlapping occurrence, scanning left to right.  This equals
`rep.join(s.split(pat))`. -/
def pyReplace (s pat rep : String) : String :=
  String.intercalate rep (s.splitOn pat)

/-! ## Data model (`NutritionInfo`, `FoodProduct`, lines 45–68) -/

/-- Per-100g nutrient values; every field is `Optional[float] = None` in the
pydantic model. -/
structure NutritionInfo where
  energy_100g : Option ℚ := none
  fat_100g : Option ℚ := none
  saturated_fat_100g : Option ℚ := none
  carbohydrates_100g : Option ℚ := none
  sugars_100g : Option ℚ := none
  fiber_100g : Option ℚ := none
  proteins_100g : Option ℚ := none
  salt_100g : Option ℚ := none
  sodium_100g : Option ℚ := none
deriving DecidableEq

/-- Canonical product entity (`FoodProduct`, lines 56–68).  `id` and
`product_name` are required; everything else is optional. -/
structure FoodProduct where
  id : String
  product_name : String
  brand : Option String := none
  image_url : Option String := none
  barcode : Option String := none
  nutriscore_grade : Option String := none
  nova_group : Option Int := none
  nutrition : Option NutritionInfo := none
  ingredients_text : Option String := none
  health_score : Option ℚ := none
  health_rating : Option String := none
  additives : Option (List String) := none
deriving DecidableEq

/-! ## Python rounding (`round(score, 1)`, line 144) -/

/-- Round-half-to-even to the nearest integer, as Python `round` does. -/
def roundHalfEven (q : ℚ) : ℤ :=
  if q - ⌊q⌋ < 1/2 then ⌊q⌋
  else if 1/2 < q - ⌊q⌋ then ⌊q⌋ + 1
  else if ⌊q⌋ % 2 = 0 then ⌊q⌋ else ⌊q⌋ + 1

/-- Python `round(q, 1)`: round to one decimal place, ties to even. -/
def pyRound1 (q : ℚ) : ℚ := ((roundHalfEven (q * 10) : ℤ) : ℚ) / 10

/-! ## Scoring (`HealthScoreCalculator.calculate_health_score`, lines 84–144)

Each `if nutrition.x_100g and nutrition.x_100g > t:` guard is modelled as
"field present, nonzero, and greater than `t`" (Python numeric truthiness:
`None` and `0.0` are falsy). -/

/-- Energy penalty, line 90–91: above 300 kcal/100g subtract
`min(30, (energy - 300) / 10)`. -/
def energy_penalty (x : Option ℚ) : ℚ :=
  match x with
  | none => 0
  | some v => if v ≠ 0 ∧ 300 < v then min 30 ((v - 300) / 10) else 0

/-- Sugar penalty, lines 94–95: above 10 g/100g subtract
`min(25, (sugars - 10) * 2)`. -/
def sugar_penalty (x : Option ℚ) : ℚ :=
  match x with
  | none => 0
  | some v => if v ≠ 0 ∧ 10 < v then min 25 ((v - 10) * 2) else 0

/-- Salt branch of the sodium/salt penalty, lines 100–101. -/
def salt_penalty (x : Option ℚ) : ℚ :=
  match x with
  | none => 0
  | some v => if v ≠ 0 ∧ 5/2 < v then min 20 ((v - 5/2) * 6) else 0

/-- Sodium/salt penalty, lines 98–101: the `elif` makes the salt branch
reachable only when the sodium guard (present, nonzero, `> 1`) fails. -/
def sodium_salt_penalty (sodium salt : Option ℚ) : ℚ :=
  match sodium with
  | some v => if v ≠ 0 ∧ 1 < v then min 20 ((v - 1) * 15) else salt_penalty salt
  | none => salt_penalty salt

/-- Saturated-fat penalty, lines 104–105. -/
def satfat_penalty (x : Option ℚ) : ℚ :=
  match x with
  | none => 0
  | some v => if v ≠ 0 ∧ 5 < v then min 20 ((v - 5) * 2) else 0

/-- Fiber bonus, lines 108–109. -/
def fiber_bonus (x : Option ℚ) : ℚ :=
  match x with
  | none => 0
  | some v => if v ≠ 0 ∧ 3 < v then min 15 ((v - 3) * 3) else 0

/-- Protein bonus, lines 112–113. -/
def protein_bonus (x : Option ℚ) : ℚ :=
  match x with
  | none => 0
  | some v => if v ≠ 0 ∧ 10 < v then min 10 ((v - 10) * 1) else 0

/-- Nutri-Score grade adjustment, lines 116–118: `dict.get(grade.lower(), 0)`
over `a..e`, guarded by string truthiness (`None` and `""` are falsy). -/
def grade_adjust (g : Option String) : ℚ :=
  match g with
  | none => 0
  | some s =>
    if s ≠ "" then
      (if pyLower s = "a" then 0
       else if pyLower s = "b" then -5
       else if pyLower s = "c" then -15
       else if pyLower s = "d" then -25
       else if pyLower s = "e" then -35
       else 0)
    else 0

/-- NOVA group adjustment, lines 121–123, guarded by integer truthiness. -/
def nova_adjust (nv : Option Int) : ℚ :=
  match nv with
  | none => 0
  | some v =>
    if v ≠ 0 then
      (if v = 1 then 0
       else if v = 2 then -5
       else if v = 3 then -15
       else if v = 4 then -25
       else 0)
    else 0

/-- Additive penalty, lines 126–127, guarded by list truthiness. -/
def additives_penalty (a : Option (List String)) : ℚ :=
  match a with
  | none => 0
  | some l => if l ≠ [] then min 15 ((l.length : ℚ) * 2) else 0

/-- The running `score` variable right before the clamp at line 130: baseline
100 plus all additive penalty/bonus terms (the nutrient block is guarded by
`if nutrition:` at line 88; a model instance is always truthy, so the guard
only distinguishes `None`). -/
def rawScore (nutrition : Option NutritionInfo) (grade : Option String)
    (nova : Option Int) (additives : Option (List String)) : ℚ :=
  (match nutrition with
   | none => 100
   | some n =>
     100 - energy_penalty n.energy_100g - sugar_penalty n.sugars_100g
       - sodium_salt_penalty n.sodium_100g n.salt_100g
       - satfat_penalty n.saturated_fat_100g
       + fiber_bonus n.fiber_100g + protein_bonus n.proteins_100g)
  + grade_adjust grade + nova_adjust nova - additives_penalty additives

/-- The clamp `score = max(0, min(100, score))` at line 130. -/
def clampedScore (nutrition : Option NutritionInfo) (grade : Option String)
    (nova : Option Int) (additives : Option (List String)) : ℚ :=
  max 0 (min 100 (rawScore nutrition grade nova additives))

/-- The rating chain of lines 133–142 (also the banding of spec §4.1):
inclusive lower bounds 80 / 65 / 50 / 35. -/
def bandOf (score : ℚ) : String :=
  if 80 ≤ score then "Excellent"
  else if 65 ≤ score then "Good"
  else if 50 ≤ score then "Moderate"
  else if 35 ≤ score then "Poor"
  else "Very Poor"

/-- `calculate_health_score`, lines 84–144: the rating is derived from the
clamped score *before* rounding, and the returned score is that value
rounded to one decimal place (`return round(score, 1), rating`). -/
def calculate_health_score (nutrition : Option NutritionInfo)
    (nutriscore_grade : Option String) (nova_group : Option Int)
    (additives : Option (List String)) : ℚ × String :=
  (pyRound1 (clampedScore nutrition nutriscore_grade nova_group additives),
   bandOf (clampedScore nutrition nutriscore_grade nova_group additives))

/-! ## Query enhancement (`_enhance_indian_query`, lines 235–259) -/

/-- The `indian_mappings` dict, lines 241–253, in insertion order (Python
dict iteration order); the loop returns on the first key contained in the
lowercased query. -/
def indian_mappings : List (String × String) :=
  [("atta", "wheat flour atta"),
   ("dal", "lentils dal"),
   ("chawal", "rice basmati"),
   ("ghee", "clarified butter ghee"),
   ("masala", "spice masala mix"),
   ("namkeen", "savory snacks namkeen"),
   ("mithai", "indian sweets"),
   ("chai", "tea chai"),
   ("lassi", "yogurt drink lassi"),
   ("papad", "papadum crispy"),
   ("pickle", "indian pickle achar")]

/-- `_enhance_indian_query`: first matching entry wins, otherwise the query
is returned unmodified. -/
def enhance_indian_query (query : String) : String :=
  match indian_mappings.find? (fun m => strContains (pyLower query) m.1) with
  | some m => m.2
  | none => query

/-! ## Search coordination (`search_products`, lines 160–204) -/

/-- The `indian_brands` list of line 185. -/
def indian_brands : List String :=
  ["amul", "britannia", "parle", "haldiram", "mdh", "everest", "tata",
   "nestle india", "itc", "dabur", "patanjali"]

/-- The pass-1 guard of line 190: brand present and truthy, and some
preferred brand name is a substring of the lowercased brand. -/
def hasIndianBrand (p : FoodProduct) : Bool :=
  match p.brand with
  | none => false
  | some b =>
    if b = "" then false
    else indian_brands.any (fun ib => strContains (pyLower b) ib)

/-- First pass, lines 188–192: emit, in order, every not-yet-seen product
with a preferred Indian brand; only emitted products are added to the seen
set.  Returns the emitted products and the updated seen set. -/
def pass1 : List FoodProduct → List String → List FoodProduct × List String
  | [], seen => ([], seen)
  | p :: rest, seen =>
    if p.id ∈ seen then pass1 rest seen
    else if hasIndianBrand p then
      (p :: (pass1 rest (p.id :: seen)).1, (pass1 rest (p.id :: seen)).2)
    else pass1 rest seen

/-- Second pass, lines 195–198: emit remaining not-yet-seen products while
the accumulated result (of current length `curLen`) is still shorter than
`limit`. -/
def pass2 : List FoodProduct → List String → ℕ → ℕ → List FoodProduct
  | [], _, _, _ => []
  | p :: rest, seen, curLen, limit =>
    if p.id ∉ seen ∧ curLen < limit then
      p :: pass2 rest (p.id :: seen) (curLen + 1) limit
    else pass2 rest seen curLen limit

/-- The `filtered_products` list after both passes (lines 183–198): pass 1
over the combined list, then pass 2 continuing with pass 1's seen set and
accumulated length. -/
def filtered_products (all_products : List FoodProduct) (limit : ℕ) : List FoodProduct :=
  (pass1 all_products []).1 ++
    pass2 all_products (pass1 all_products []).2 (pass1 all_products []).1.length limit

/-- `search_products`, lines 160–204, with the two upstream sources modelled
as functions from (enhanced query, requested page size) to the parsed
product lists they return.  The regional source is asked for
`min(limit, 15)` records; if it yields at least 5, its list truncated to
`limit` is returned and the global source is never consulted.  Otherwise the
global source is asked for `limit` records and the two-pass
dedup-and-prioritize runs on the concatenation.  The second component
records whether the global source was queried. -/
def search_products_model (indiaSource globalSource : String → ℕ → List FoodProduct)
    (query : String) (limit : ℕ) : List FoodProduct × Bool :=
  let indian_products := indiaSource (enhance_indian_query query) (min limit 15)
  if 5 ≤ indian_products.length then
    (indian_products.take limit, false)
  else
    let global_products := globalSource (enhance_indian_query query) limit
    let all_products := indian_products ++ global_products
    ((filtered_products all_products limit).take limit, true)

/-- Rendering of the spec sentence "output = regional records
truncated/reordered by brand preference" for the `≥ 5` branch: the two-pass
brand-preference reordering (spec §4.4 steps 4–5) applied to the regional
records, truncated to `limit`. -/
def regionalRankedOutput (regional : List FoodProduct) (limit : ℕ) : List FoodProduct :=
  (filtered_products regional limit).take limit

/-! ## Barcode lookup (`get_product_by_barcode`, lines 261–281, and the
`/food/barcode` route, lines 375–381) -/

/-- `get_product_by_barcode` with the two upstream answers passed
explicitly: return the regional record if present, otherwise whatever the
global source returned. -/
def get_product_by_barcode_model (regional global_result : Option FoodProduct) :
    Option FoodProduct :=
  match regional with
  | some p => some p
  | none => global_result

/-- The `/food/barcode/{barcode}` handler: a missing product becomes an
explicit 404 `HTTPException` ("Product not found"), never an empty list. -/
def get_food_by_barcode_model (regional global_result : Option FoodProduct) :
    Except String FoodProduct :=
  match get_product_by_barcode_model regional global_result with
  | some p => Except.ok p
  | none => Except.error "Product not found"

/-! ## Normalization (`_parse_product`, lines 308–350) -/

/-- Upstream `nutriments` sub-object: each key independently absent. -/
structure RawNutriments where
  energy_kcal_100g : Option ℚ := none
  fat_100g : Option ℚ := none
  saturated_fat_100g : Option ℚ := none
  carbohydrates_100g : Option ℚ := none
  sugars_100g : Option ℚ := none
  fiber_100g : Option ℚ := none
  proteins_100g : Option ℚ := none
  salt_100g : Option ℚ := none
  sodium_100g : Option ℚ := none
deriving DecidableEq

/-- Raw upstream record as consumed by `_parse_product`: each field is
either absent (the dict key is missing) or present with a typed value. -/
structure RawProduct where
  code : Option String := none
  product_name : Option String := none
  brands : Option String := none
  image_url : Option String := none
  nutriscore_grade : Option String := none
  nova_group : Option Int := none
  nutriments : Option RawNutriments := none
  ingredients_text : Option String := none
  additives_tags : Option (List String) := none
deriving DecidableEq

/-- `_parse_product`, lines 308–350.  `fresh_uuid` stands for the
`str(uuid.uuid4())` default evaluated at line 338; note that
`product_data.get("code", default)` falls back to it only when the key is
*absent* — a present empty string is kept as the id.  A `NutritionInfo` is
always constructed (possibly with every field unset), additives keep only
`en:`-prefixed tags with every occurrence of `en:` removed (Python
`str.replace`), and the health score/rating are always computed and
attached. -/
def parse_product (product_data : RawProduct) (fresh_uuid : String) : FoodProduct :=
  let nm := product_data.nutriments.getD {}
  let nutrition : NutritionInfo :=
    { energy_100g := nm.energy_kcal_100g
      fat_100g := nm.fat_100g
      saturated_fat_100g := nm.saturated_fat_100g
      carbohydrates_100g := nm.carbohydrates_100g
      sugars_100g := nm.sugars_100g
      fiber_100g := nm.fiber_100g
      proteins_100g := nm.proteins_100g
      salt_100g := nm.salt_100g
      sodium_100g := nm.sodium_100g }
  let additives :=
    ((product_data.additives_tags.getD []).filter (fun a => a.startsWith "en:")).map
      (fun a => pyReplace a "en:" "")
  let hs := calculate_health_score (some nutrition) product_data.nutriscore_grade
      product_data.nova_group (some additives)
  { id := product_data.code.getD fresh_uuid
    product_name := product_data.product_name.getD "Unknown Product"
    brand := product_data.brands
    image_url := product_data.image_url
    barcode := product_data.code
    nutriscore_grade := product_data.nutriscore_grade
    nova_group := product_data.nova_group
    nutrition := some nutrition
    ingredients_text := product_data.ingredients_text
    health_score := some hs.1
    health_rating := some hs.2
    additives := some additives }

/-! ## Request validation (`FoodSearchRequest`, lines 41–43, and the
`/food/search` handler, lines 369–373) -/

/-- The pydantic `FoodSearchRequest` after validation: `query: str`,
`limit: Optional[int] = 20`. -/
structure FoodSearchRequest where
  query : String
  limit : Option Int
deriving DecidableEq

/-- Pydantic validation of `FoodSearchRequest` (lines 41–43): `query` is
required; `limit` declares no bound, so any integer — negative included —
validates.  Input encoding: `none` = field absent (the default 20 applies),
`some none` = explicit `null`, `some (some n)` = the integer `n`. -/
def validateFoodSearchRequest (query : Option String) (limit : Option (Option Int)) :
    Except String FoodSearchRequest :=
  match query with
  | none => Except.error "field required: query"
  | some q =>
    Except.ok { query := q, limit := (match limit with | none => some 20 | some l => l) }

/-- Instrumented `/food/search` handler (lines 369–373): once validation
succeeds the handler calls `search_products` unconditionally, whose first
action (line 166) is the regional HTTP request — no limit check precedes
it.  The second component records whether an upstream network request is
issued. -/
def search_food_products_model (query : Option String) (limit : Option (Option Int)) :
    Except String FoodSearchRequest × Bool :=
  match validateFoodSearchRequest query limit with
  | Except.error e => (Except.error e, false)
  | Except.ok req => (Except.ok req, true)

/-! ## Concrete inputs used by counterexamples and witnesses -/

/-- Nutrition profile with energy 500.4 kcal/100g and nothing else: its raw
score is 100 − 20.04 = 79.96, which rounds to 80.0. -/
def nutritionC1 : NutritionInfo := { energy_100g := some (2502/5) }

/-- A brandless product with the given id. -/
def prodN (i : String) : FoodProduct := { id := i, product_name := "generic" }

/-- An Amul-branded product (matches the preferred-brand list). -/
def prodAmul (i : String) : FoodProduct :=
  { id := i, product_name := "butter", brand := some "Amul" }

/-- Regional source returning six records, the preferred-brand one last. -/
def indiaSourceSix : String → ℕ → List FoodProduct :=
  fun _ _ => [prodN "n1", prodN "n2", prodN "n3", prodN "n4", prodN "n5", prodAmul "a1"]

/-- A global source returning one unrelated record. -/
def globalSourceAny : String → ℕ → List FoodProduct := fun _ _ => [prodN "g1"]

/-- Regional source returning a single preferred-brand record. -/
def indiaSourceOne : String → ℕ → List FoodProduct := fun _ _ => [prodAmul "a1"]

/-- Global source returning the same record twice (a repeated product id). -/
def globalSourceDup : String → ℕ → List FoodProduct :=
  fun _ _ => [prodN "b1", prodN "b1"]

/-- Raw record whose `code` key is present but maps to the empty string. -/
def rawEmptyCode : RawProduct := { code := some "" }

/-- Raw record with no `code` key at all. -/
def rawAbsentCode : RawProduct := {}

/-! ## Helper lemmas about the rounding function -/

theorem floor_le_roundHalfEven (q : ℚ) : ⌊q⌋ ≤ roundHalfEven q := by
  unfold roundHalfEven
  split_ifs <;> omega

theorem roundHalfEven_le_floor_add_one (q : ℚ) : roundHalfEven q ≤ ⌊q⌋ + 1 := by
  unfold roundHalfEven
  split_ifs <;> omega

theorem roundHalfEven_cast_le (q : ℚ) : (roundHalfEven q : ℚ) ≤ q + 1/2 := by
  have h1 : (⌊q⌋ : ℚ) ≤ q := Int.floor_le q
  unfold roundHalfEven
  split_ifs with a b c <;> push_cast <;> linarith

theorem le_roundHalfEven_cast (q : ℚ) : q - 1/2 ≤ (roundHalfEven q : ℚ) := by
  have h1 : q < ⌊q⌋ + 1 := Int.lt_floor_add_one q
  unfold roundHalfEven
  split_ifs with a b c <;> push_cast <;> linarith

theorem roundHalfEven_mono {q r : ℚ} (h : q ≤ r) :
    roundHalfEven q ≤ roundHalfEven r := by
  rcases lt_or_eq_of_le (Int.floor_mono h) with hf | hf
  · calc roundHalfEven q ≤ ⌊q⌋ + 1 := roundHalfEven_le_floor_add_one q
      _ ≤ ⌊r⌋ := by omega
      _ ≤ roundHalfEven r := floor_le_roundHalfEven r
  · unfold roundHalfEven
    rw [← hf]
    split_ifs <;> first | omega | (exfalso; linarith)

theorem pyRound1_mono {q r : ℚ} (h : q ≤ r) : pyRound1 q ≤ pyRound1 r := by
  unfold pyRound1
  have h1 : roundHalfEven (q * 10) ≤ roundHalfEven (r * 10) :=
    roundHalfEven_mono (by linarith)
  have h2 : ((roundHalfEven (q * 10) : ℤ) : ℚ) ≤ ((roundHalfEven (r * 10) : ℤ) : ℚ) := by
    exact_mod_cast h1
  linarith

theorem pyRound1_nonneg {q : ℚ} (h : 0 ≤ q) : 0 ≤ pyRound1 q := by
  unfold pyRound1
  have h1 := le_roundHalfEven_cast (q * 10)
  have h2 : (-1 : ℚ) < (roundHalfEven (q * 10) : ℚ) := by linarith
  have h3 : (-1 : ℤ) < roundHalfEven (q * 10) := by exact_mod_cast h2
  have h4 : (0 : ℚ) ≤ (roundHalfEven (q * 10) : ℚ) := by
    have : (0 : ℤ) ≤ roundHalfEven (q * 10) := by omega
    exact_mod_cast this
  linarith

theorem pyRound1_le_100 {q : ℚ} (h : q ≤ 100) : pyRound1 q ≤ 100 := by
  unfold pyRound1
  have h1 := roundHalfEven_cast_le (q * 10)
  have h2 : (roundHalfEven (q * 10) : ℚ) < 1001 := by linarith
  have h3 : roundHalfEven (q * 10) < 1001 := by exact_mod_cast h2
  have h4 : ((roundHalfEven (q * 10) : ℤ) : ℚ) ≤ 1000 := by
    have : roundHalfEven (q * 10) ≤ 1000 := by omega
    exact_mod_cast this
  linarith

theorem abs_pyRound1_sub_le (q : ℚ) : |pyRound1 q - q| ≤ 1/20 := by
  unfold pyRound1
  have h1 := roundHalfEven_cast_le (q * 10)
  have h2 := le_roundHalfEven_cast (q * 10)
  rw [abs_le]
  constructor <;> linarith

/-! ## Helper lemmas about the clamp -/

theorem clampedScore_nonneg (n : Option NutritionInfo) (g : Option String)
    (nv : Option Int) (a : Option (List String)) : 0 ≤ clampedScore n g nv a :=
  le_max_left 0 _

theorem clampedScore_le_100 (n : Option NutritionInfo) (g : Option String)
    (nv : Option Int) (a : Option (List String)) : clampedScore n g nv a ≤ 100 := by
  unfold clampedScore
  exact max_le (by norm_num) (min_le_left _ _)

/-! ## Helper lemmas about the two ranking passes -/

theorem pass1_snd_eq (l : List FoodProduct) (seen : List String) :
    (pass1 l seen).2 = ((pass1 l seen).1.map FoodProduct.id).reverse ++ seen := by
  induction l generalizing seen with
  | nil => simp [pass1]
  | cons p rest ih =>
    by_cases h1 : p.id ∈ seen
    · simpa [pass1, h1] using ih seen
    · by_cases h2 : hasIndianBrand p = true
      · have := ih (p.id :: seen)
        simp only [pass1, if_neg h1, if_pos h2, List.map_cons, List.reverse_cons,
          List.append_assoc, List.singleton_append]
        exact this
      · simpa [pass1, h1, h2] using ih seen

theorem mem_pass1_snd {x : String} (l : List FoodProduct) (seen : List String) :
    x ∈ (pass1 l seen).2 ↔ x ∈ (pass1 l seen).1.map FoodProduct.id ∨ x ∈ seen := by
  rw [pass1_snd_eq]
  simp

theorem pass1_nodup (l : List FoodProduct) (seen : List String) :
    ((pass1 l seen).1.map FoodProduct.id).Nodup ∧
      ∀ x ∈ (pass1 l seen).1.map FoodProduct.id, x ∉ seen := by
  induction l generalizing seen with
  | nil => simp [pass1]
  | cons p rest ih =>
    by_cases h1 : p.id ∈ seen
    · simpa [pass1, h1] using ih seen
    · by_cases h2 : hasIndianBrand p = true
      · have ihs := ih (p.id :: seen)
        simp only [pass1, if_neg h1, if_pos h2, List.map_cons, List.nodup_cons]
        refine ⟨⟨?_, ihs.1⟩, ?_⟩
        · intro hmem
          exact (ihs.2 _ hmem) (List.mem_cons_self _ _)
        · intro x hx
          rcases List.mem_cons.mp hx with rfl | hx
          · exact h1
          · intro hxs
            exact (ihs.2 _ hx) (List.mem_cons_of_mem _ hxs)
      · simpa [pass1, h1, h2] using ih seen

theorem pass2_nodup (l : List FoodProduct) (seen : List String) (cur limit : ℕ) :
    ((pass2 l seen cur limit).map FoodProduct.id).Nodup ∧
      ∀ x ∈ (pass2 l seen cur limit).map FoodProduct.id, x ∉ seen := by
  induction l generalizing seen cur with
  | nil => simp [pass2]
  | cons p rest ih =>
    by_cases h1 : p.id ∉ seen ∧ cur < limit
    · have ihs := ih (p.id :: seen) (cur + 1)
      simp only [pass2, if_pos h1, List.map_cons, List.nodup_cons]
      refine ⟨⟨?_, ihs.1⟩, ?_⟩
      · intro hmem
        exact (ihs.2 _ hmem) (List.mem_cons_self _ _)
      · intro x hx
        rcases List.mem_cons.mp hx with rfl | hx
        · exact h1.1
        · intro hxs
          exact (ihs.2 _ hx) (List.mem_cons_of_mem _ hxs)
    · simpa [pass2, h1] using ih seen cur

theorem filtered_products_nodup (all_products : List FoodProduct) (limit : ℕ) :
    ((filtered_products all_products limit).map FoodProduct.id).Nodup := by
  unfold filtered_products
  rw [List.map_append]
  have h1 := pass1_nodup all_products []
  have h2 := pass2_nodup all_products (pass1 all_products []).2
    (pass1 all_products []).1.length limit
  refine List.Nodup.append h1.1 h2.1 ?_
  intro x hx1 hx2
  have hx1s : x ∈ (pass1 all_products []).2 :=
    (mem_pass1_snd all_products []).mpr (Or.inl hx1)
  exact h2.2 x hx2 hx1s

/-! ## Claim C1 -/

/-- C1 counterexample: at energy = 500.4 kcal/100g the clamped score is
79.96, so the code returns the rounded score 80.0 together with the rating
"Good" computed before rounding — but the §4.1 band of the returned score
80.0 is "Excellent".  The returned score and rating disagree, refuting the
claim as stated. -/
theorem score_rating_disagree_at_boundary :
    calculate_health_score (some nutritionC1) none none none = (80, "Good") ∧
    (calculate_health_score (some nutritionC1) none none none).2 ≠
      bandOf ((calculate_health_score (some nutritionC1) none none none).1) := by
  have hraw : rawScore (some nutritionC1) none none none = 1999/25 := by
    simp only [rawScore, nutritionC1, energy_penalty, sugar_penalty, salt_penalty,
      sodium_salt_penalty, satfat_penalty, fiber_bonus, protein_bonus,
      grade_adjust, nova_adjust, additives_penalty]
    norm_num [min_def]
  have hcl : clampedScore (some nutritionC1) none none none = 1999/25 := by
    unfold clampedScore
    rw [hraw]
    norm_num [min_def, max_def]
  have hround : pyRound1 (1999/25) = 80 := by
    norm_num [pyRound1, roundHalfEven]
  have hband : bandOf ((1999:ℚ)/25) = "Good" := by
    norm_num [bandOf]
  have hcalc : calculate_health_score (some nutritionC1) none none none = (80, "Good") := by
    unfold calculate_health_score
    rw [hcl, hround, hband]
  have hb80 : bandOf (80 : ℚ) = "Excellent" := by norm_num [bandOf]
  refine ⟨hcalc, ?_⟩
  rw [hcalc]
  show "Good" ≠ bandOf (80 : ℚ)
  rw [hb80]
  decide

/-- C1 amended: the returned rating always equals the §4.1 band of the
clamped score *before* rounding, and the returned score is that clamped
score rounded to one decimal (so it differs from it by at most 0.05); the
two returned fields can therefore disagree only when rounding crosses a
band boundary. -/
theorem rating_matches_band_of_unrounded (n : Option NutritionInfo)
    (g : Option String) (nv : Option Int) (a : Option (List String)) :
    (calculate_health_score n g nv a).2 = bandOf (clampedScore n g nv a) ∧
    |(calculate_health_score n g nv a).1 - clampedScore n g nv a| ≤ 1/20 :=
  ⟨rfl, abs_pyRound1_sub_le _⟩

/-! ## Claim C2 -/

/-- C2 counterexample: the regional source returns six records with the
preferred-brand one last.  The `≥ 5` branch returns them truncated in their
original order, which differs from the brand-preference reordering the
claim asserts (which would move the Amul product first). -/
theorem regional_branch_not_reordered :
    5 ≤ (indiaSourceSix (enhance_indian_query "zzz") (min 20 15)).length ∧
    (search_products_model indiaSourceSix globalSourceAny "zzz" 20).2 = false ∧
    (search_products_model indiaSourceSix globalSourceAny "zzz" 20).1 ≠
      regionalRankedOutput (indiaSourceSix (enhance_indian_query "zzz") (min 20 15)) 20 := by
  refine ⟨by decide, by decide, by decide⟩

/-- C2 amended: if the regional source returns at least 5 records, the
global source is never queried and the output is exactly the regional
record list truncated to `limit` — in its original order, with no
brand-preference reordering and no deduplication applied. -/
theorem regional_short_circuit (iS gS : String → ℕ → List FoodProduct) (q : String)
    (limit : ℕ) (h : 5 ≤ (iS (enhance_indian_query q) (min limit 15)).length) :
    search_products_model iS gS q limit =
      ((iS (enhance_indian_query q) (min limit 15)).take limit, false) := by
  simp only [search_products_model]
  rw [if_pos h]

/-- Witness for `regional_short_circuit` at a concrete six-record regional
source and limit 20. -/
theorem regional_short_circuit_witness :
    5 ≤ (indiaSourceSix (enhance_indian_query "zzz") (min 20 15)).length ∧
    search_products_model indiaSourceSix globalSourceAny "zzz" 20 =
      ((indiaSourceSix (enhance_indian_query "zzz") (min 20 15)).take 20, false) :=
  ⟨by decide, regional_short_circuit indiaSourceSix globalSourceAny "zzz" 20 (by decide)⟩

/-! ## Claim C3 -/

/-- C3 counterexample: a request with limit −5 passes pydantic validation
(the `FoodSearchRequest` model declares no bound on `limit`) and the
handler proceeds to `search_products`, which issues the regional network
request — no `ValidationError` rejection happens. -/
theorem negative_limit_not_rejected :
    search_food_products_model (some "milk") (some (some (-5))) =
      (Except.ok { query := "milk", limit := some (-5) }, true) := rfl

/-- C3 amended: a search request with a negative limit is accepted by
validation exactly like any other integer limit, and the handler then
issues the upstream network request; no rejection occurs before the
network call. -/
theorem negative_limit_accepted (q : String) (n : Int) (h : n < 0) :
    validateFoodSearchRequest (some q) (some (some n)) =
      Except.ok { query := q, limit := some n } ∧
    (search_food_products_model (some q) (some (some n))).2 = true :=
  ⟨rfl, rfl⟩

/-- Witness for `negative_limit_accepted` at limit −7. -/
theorem negative_limit_accepted_witness :
    (-7 : Int) < 0 ∧
    (validateFoodSearchRequest (some "paneer") (some (some (-7))) =
        Except.ok { query := "paneer", limit := some (-7) } ∧
      (search_food_products_model (some "paneer") (some (some (-7)))).2 = true) :=
  ⟨by decide, negative_limit_accepted "paneer" (-7) (by decide)⟩

/-! ## Claim C4 -/

/-- C4 counterexample: a raw record whose `code` key is present but empty
keeps the empty string as its id — `dict.get("code", uuid4())` only falls
back to the generated id when the key is absent, refuting the claim for
the "empty" case. -/
theorem empty_code_keeps_empty_id :
    rawEmptyCode.code = some "" ∧
    (parse_product rawEmptyCode "fresh-uuid-1").id = "" :=
  ⟨rfl, rfl⟩

/-- C4 amended: only a record with the `code` key *absent* gets the freshly
generated id; a present `code` value — the empty string included — is kept
verbatim as the product id. -/
theorem parse_product_id_policy (raw : RawProduct) (fresh : String) :
    (raw.code = none → (parse_product raw fresh).id = fresh) ∧
    ∀ c, raw.code = some c → (parse_product raw fresh).id = c := by
  constructor
  · intro h
    simp [parse_product, h]
  · intro c h
    simp [parse_product, h]

/-- Witness for `parse_product_id_policy` on records with absent and with
empty `code`. -/
theorem parse_product_id_policy_witness :
    (parse_product rawAbsentCode "fresh-uuid-2").id = "fresh-uuid-2" ∧
    (parse_product rawEmptyCode "fresh-uuid-2").id = "" :=
  ⟨(parse_product_id_policy rawAbsentCode "fresh-uuid-2").1 rfl,
   (parse_product_id_policy rawEmptyCode "fresh-uuid-2").2 "" rfl⟩

/-! ## Claim C5 -/

/-- C5: for every combination of present/absent nutrition fields, grade,
nova group and additive list, the returned health score lies in [0, 100]:
the clamp at line 130 bounds the pre-rounding score and rounding to one
decimal keeps it inside the bounds. -/
theorem health_score_in_bounds (n : Option NutritionInfo) (g : Option String)
    (nv : Option Int) (a : Option (List String)) :
    0 ≤ (calculate_health_score n g nv a).1 ∧
      (calculate_health_score n g nv a).1 ≤ 100 :=
  ⟨pyRound1_nonneg (clampedScore_nonneg n g nv a),
   pyRound1_le_100 (clampedScore_le_100 n g nv a)⟩

/-! ## Claim C6 -/

/-- C6: for every pair of sources, every query and every non-negative
limit (modelled as `ℕ`), the search result has length at most `limit`:
both the `≥ 5` regional branch and the combined two-pass branch truncate
with `[:limit]` before returning. -/
theorem search_length_le_limit (iS gS : String → ℕ → List FoodProduct)
    (q : String) (limit : ℕ) :
    (search_products_model iS gS q limit).1.length ≤ limit := by
  simp only [search_products_model]
  split_ifs with h <;> · simp only [List.length_take]; omega

/-! ## Claim C7 -/

/-- C7 counterexample: with limit 1, the combined list
[Amul "a1", "b1", "b1"] contains the id "b1" twice, yet the output contains
it zero times — the preferred-brand product fills the limit and pass 2
never emits "b1", refuting "contains that id exactly once". -/
theorem repeated_id_dropped_by_limit :
    ((indiaSourceOne (enhance_indian_query "zzz") (min 1 15) ++
        globalSourceDup (enhance_indian_query "zzz") 1).filter
      (fun p => p.id == "b1")).length = 2 ∧
    ((search_products_model indiaSourceOne globalSourceDup "zzz" 1).1.filter
      (fun p => p.id == "b1")).length = 0 :=
  ⟨by decide, by decide⟩

/-- C7 amended: in the two-pass emission order (and hence in the truncated
branch-2 output of resolveSearch) every product id appears at most once —
the seen-set makes the emitted ids pairwise distinct — but a repeated id
can be absent entirely when the limit cutoff is reached before its first
emission. -/
theorem dedup_ids_nodup (all_products : List FoodProduct) (limit : ℕ) :
    (((filtered_products all_products limit).take limit).map FoodProduct.id).Nodup :=
  List.Nodup.sublist ((List.take_sublist _ _).map _)
    (filtered_products_nodup all_products limit)

/-! ## Claim C8 -/

/-- C8: barcode lookup returns the regional record immediately when the
regional source has one; otherwise it returns whatever the global source
yielded; and when both sources yield nothing the route handler produces the
explicit "Product not found" error outcome (HTTP 404), not an empty
result list. -/
theorem barcode_regional_first_then_global :
    (∀ (p : FoodProduct) (g : Option FoodProduct),
        get_product_by_barcode_model (some p) g = some p) ∧
    (∀ g : Option FoodProduct, get_product_by_barcode_model none g = g) ∧
    get_food_by_barcode_model none none = Except.error "Product not found" :=
  ⟨fun _ _ => rfl, fun _ => rfl, rfl⟩

/-! ## Claim C9 -/

/-- C9: scoring is monotonically non-increasing in sugar above the
10 g/100g threshold — for two inputs identical except for the sugars
field, with 10 < s1 ≤ s2, the returned score at s2 is at most the returned
score at s1.  The sugar penalty is monotone, the other terms coincide, and
the clamp and the rounding are monotone. -/
theorem sugar_monotone (n : NutritionInfo) (g : Option String) (nv : Option Int)
    (a : Option (List String)) (s1 s2 : ℚ) (h1 : 10 < s1) (h2 : s1 ≤ s2) :
    (calculate_health_score (some { n with sugars_100g := some s2 }) g nv a).1 ≤
      (calculate_health_score (some { n with sugars_100g := some s1 }) g nv a).1 := by
  have hp : sugar_penalty (some s1) ≤ sugar_penalty (some s2) := by
    have t1 : s1 ≠ 0 ∧ 10 < s1 := ⟨by linarith, h1⟩
    have t2 : s2 ≠ 0 ∧ 10 < s2 := ⟨by linarith, by linarith⟩
    simp only [sugar_penalty, if_pos t1, if_pos t2]
    exact min_le_min le_rfl (by linarith)
  have hraw : rawScore (some { n with sugars_100g := some s2 }) g nv a ≤
      rawScore (some { n with sugars_100g := some s1 }) g nv a := by
    simp only [rawScore]
    linarith
  simp only [calculate_health_score]
  apply pyRound1_mono
  unfold clampedScore
  exact max_le_max le_rfl (min_le_min le_rfl hraw)

/-- Witness for `sugar_monotone` at sugars 12 and 14 g/100g. -/
theorem sugar_monotone_witness :
    (10 : ℚ) < 12 ∧ (12 : ℚ) ≤ 14 ∧
    (calculate_health_score
        (some { ({} : NutritionInfo) with sugars_100g := some 14 }) none none none).1 ≤
      (calculate_health_score
        (some { ({} : NutritionInfo) with sugars_100g := some 12 }) none none none).1 :=
  ⟨by norm_num, by norm_num,
   sugar_monotone {} none none none 12 14 (by norm_num) (by norm_num)⟩

/-! ## Claim C10 -/

/-- C10: every product built by `_parse_product` has a populated nutrition
object (even when the upstream `nutriments` dict is absent), a populated
health score and a populated health rating, although the `FoodProduct`
model declares the three fields optional. -/
theorem parse_product_fields_present (raw : RawProduct) (fresh : String) :
    (parse_product raw fresh).nutrition.isSome = true ∧
    (parse_product raw fresh).health_score.isSome = true ∧
    (parse_product raw fresh).health_rating.isSome = true :=
  ⟨rfl, rfl, rfl⟩
